import Mathlib

/-!
Verification of the Meeting Summarizer CLI (`cli.py`).

The Python source is embedded shallowly:

* tiktoken's `cl100k_base` encoding is kept abstract as a `Tokenizer`
  record (`encode`/`decode`); tokens are natural numbers.
* The remote OpenAI calls are kept abstract as an `LLMClient` record whose
  outcomes (`CallOutcome`) cover a normal return, an `openai.APIError`, and
  any other exception, matching the two `except` arms of the source.
* `sys.stdout` writes, `sys.stderr` writes and chat-completion requests are
  threaded through an explicit `SysState`; `print s` appends `s ++ "\n"` to
  stdout, `sys.stderr.write s` appends `s` to stderr.
* The `while tokens:` chunking loop is written with explicit fuel
  (`tokens.length` steps always suffice because each iteration removes
  `MAX_TOKENS_PER_CHUNK = 8000 > 0` tokens), so that it stays structurally
  recursive and computable by the kernel.
-/

namespace MeetingSummarizer

/-- A token of the cl100k_base encoding, kept abstract (tiktoken is an
external library; only the list structure of the encoding matters here). -/
abbrev Token := Nat

/-- Abstract interface of `tiktoken.get_encoding("cl100k_base")`
(cli.py line 102): an encode and a decode function. -/
structure Tokenizer where
  encode : String → List Token
  decode : List Token → String

/-- `MAX_TOKENS_PER_CHUNK = 8000` (cli.py line 15). -/
def MAX_TOKENS_PER_CHUNK : Nat := 8000

/-- Fuel-indexed form of the chunking `while tokens:` loop of
`summarize_transcript` (cli.py lines 108-112): take the first 8000 tokens
as a chunk, continue on the rest.  The fuel only bounds the number of loop
iterations; `chunkTokens` below always supplies enough. -/
def chunkTokensGo : Nat → List Token → List (List Token)
  | _, [] => []
  | 0, _ :: _ => []
  | fuel + 1, t :: ts =>
      (t :: ts).take MAX_TOKENS_PER_CHUNK ::
        chunkTokensGo fuel ((t :: ts).drop MAX_TOKENS_PER_CHUNK)

/-- The chunking loop of `summarize_transcript` (cli.py lines 107-112),
at the level of token lists: `chunks` collects `tokens[:8000]` slices while
`tokens = tokens[8000:]` shrinks.  `tokens.length` iterations always
suffice since every iteration consumes at least one token. -/
def chunkTokens (tokens : List Token) : List (List Token) :=
  chunkTokensGo tokens.length tokens

lemma chunkTokensGo_nil (fuel : Nat) : chunkTokensGo fuel [] = [] := by
  cases fuel <;> rfl

lemma chunkTokensGo_congr :
    ∀ (f₁ f₂ : Nat) (ts : List Token),
      ts.length ≤ f₁ → ts.length ≤ f₂ →
      chunkTokensGo f₁ ts = chunkTokensGo f₂ ts := by
  intro f₁
  induction f₁ with
  | zero =>
      intro f₂ ts h1 _
      have hts : ts = [] := List.eq_nil_of_length_eq_zero (Nat.le_zero.mp h1)
      subst hts
      rw [chunkTokensGo_nil, chunkTokensGo_nil]
  | succ g ih =>
      intro f₂ ts h1 h2
      rcases ts with _ | ⟨t, ts'⟩
      · rw [chunkTokensGo_nil, chunkTokensGo_nil]
      · rcases f₂ with _ | h
        · exact absurd h2 (by simp)
        · show (t :: ts').take MAX_TOKENS_PER_CHUNK ::
              chunkTokensGo g ((t :: ts').drop MAX_TOKENS_PER_CHUNK) =
            (t :: ts').take MAX_TOKENS_PER_CHUNK ::
              chunkTokensGo h ((t :: ts').drop MAX_TOKENS_PER_CHUNK)
          congr 1
          apply ih
          · have hlen : ts'.length + 1 ≤ g + 1 := by simpa using h1
            simp only [List.length_drop, List.length_cons, MAX_TOKENS_PER_CHUNK]
            omega
          · have hlen : ts'.length + 1 ≤ h + 1 := by simpa using h2
            simp only [List.length_drop, List.length_cons, MAX_TOKENS_PER_CHUNK]
            omega

/-- Unfolding equation of `chunkTokens`, in the shape of the source loop. -/
lemma chunkTokens_eq (ts : List Token) :
    chunkTokens ts =
      if ts = [] then []
      else ts.take MAX_TOKENS_PER_CHUNK ::
        chunkTokens (ts.drop MAX_TOKENS_PER_CHUNK) := by
  rcases ts with _ | ⟨t, ts'⟩
  · rfl
  · rw [if_neg (by simp)]
    show chunkTokensGo (ts'.length + 1) (t :: ts') = _
    rw [chunkTokensGo]
    congr 1
    apply chunkTokensGo_congr
    · simp only [List.length_drop, List.length_cons, MAX_TOKENS_PER_CHUNK]
      omega
    · exact le_rfl

lemma chunkTokens_spec_aux :
    ∀ (n : Nat) (ts : List Token), ts.length ≤ n →
      (∀ c ∈ chunkTokens ts, c.length ≤ MAX_TOKENS_PER_CHUNK) ∧
      (chunkTokens ts).flatten = ts := by
  intro n
  induction n with
  | zero =>
      intro ts h
      have hts : ts = [] := List.eq_nil_of_length_eq_zero (Nat.le_zero.mp h)
      subst hts
      simp [chunkTokens, chunkTokensGo_nil]
  | succ n ih =>
      intro ts h
      rcases hts : ts with _ | ⟨t, ts'⟩
      · simp [chunkTokens, chunkTokensGo_nil]
      · rw [chunkTokens_eq, if_neg (by simp)]
        have hdrop : ((t :: ts').drop MAX_TOKENS_PER_CHUNK).length ≤ n := by
          have hlen : ts'.length + 1 ≤ n + 1 := by
            simpa [hts] using h
          simp only [List.length_drop, List.length_cons, MAX_TOKENS_PER_CHUNK]
          omega
        obtain ⟨ihb, ihj⟩ := ih _ hdrop
        refine ⟨?_, ?_⟩
        · intro c hc
          rcases List.mem_cons.mp hc with hc | hc
          · subst hc
            exact List.length_take_le _ _
          · exact ihb c hc
        · rw [List.flatten_cons, ihj, List.take_append_drop]

/-- Claim C1: for every input text `T` and the chunk budget `B = 8000`, the
chunking step of `summarize_transcript` produces an ordered list of chunks
whose token counts are all at most `B`, and the concatenation of the
chunks' token sequences is exactly the token-encoding of `T`. -/
theorem C1_chunking_bounded_and_lossless (tok : Tokenizer) (T : String) :
    (∀ c ∈ chunkTokens (tok.encode T), c.length ≤ MAX_TOKENS_PER_CHUNK) ∧
    (chunkTokens (tok.encode T)).flatten = tok.encode T :=
  chunkTokens_spec_aux (tok.encode T).length _ le_rfl

/-! ## Process state: stdout, stderr, and the issued completion requests -/

/-- Observable process state: everything written to stdout so far,
everything written to stderr so far, and the chat-completion requests
issued so far (prompt together with the `is_json` flag of the call). -/
structure SysState where
  stdout : String
  stderr : String
  calls : List (String × Bool)
deriving DecidableEq

/-- The state at process start. -/
def SysState.init : SysState := ⟨"", "", []⟩

/-- Python `print(s)`: writes `s` plus a newline to stdout. -/
def printLn (s : String) (σ : SysState) : SysState :=
  { σ with stdout := σ.stdout ++ s ++ "\n" }

/-- Python `sys.stderr.write(s)`: writes `s` to stderr. -/
def errWrite (s : String) (σ : SysState) : SysState :=
  { σ with stderr := σ.stderr ++ s }

/-- Records that one `client.chat.completions.create` request was issued. -/
def logCall (prompt : String) (isJson : Bool) (σ : SysState) : SysState :=
  { σ with calls := σ.calls ++ [(prompt, isJson)] }

/-- Outcome of one remote OpenAI call: a normal return of some content, an
`openai.APIError`, or any other exception (the two `except` arms of the
source), with the exception message rendered by `str(e)`. -/
inductive CallOutcome where
  | ok (content : String)
  | apiError (msg : String)
  | exn (msg : String)
deriving DecidableEq

/-- Abstract OpenAI client of one session: the outcome of the
chat-completion call for each `(prompt, is_json)` request, and the outcome
of the single whole-file transcription call. -/
structure LLMClient where
  complete : String → Bool → CallOutcome
  transcribe : CallOutcome

/-- Python `str.strip()` with no argument: removes leading and trailing
whitespace.  Written over the character list so that the kernel can
evaluate it on concrete strings. -/
def pyStrip (s : String) : String :=
  String.mk (((s.data.dropWhile Char.isWhitespace).reverse.dropWhile
    Char.isWhitespace).reverse)

/-- `get_llm_response(prompt, client, is_json)` (cli.py lines 159-179):
issues one completion request; on success returns the content stripped of
surrounding whitespace; on any exception writes a diagnostic line to
stderr and returns the empty JSON object text in JSON mode and the empty
string otherwise. -/
def get_llm_response (client : LLMClient) (prompt : String) (isJson : Bool)
    (σ : SysState) : String × SysState :=
  let σ := logCall prompt isJson σ
  match client.complete prompt isJson with
  | .ok content => (pyStrip content, σ)
  | .apiError e =>
      ((if isJson then "\x7b\x7d" else ""),
        errWrite ("OpenAI API Error during summarization: " ++ e ++ "\n") σ)
  | .exn e =>
      ((if isJson then "\x7b\x7d" else ""),
        errWrite ("An unexpected error occurred during summarization: " ++ e ++ "\n") σ)

/-- `transcribe_audio_with_api(filename, client)` (cli.py lines 75-94):
returns the transcript on success and the failure sentinel `None` on any
exception, after writing a diagnostic line to stderr. -/
def transcribe_audio_with_api (client : LLMClient) (σ : SysState) :
    Option String × SysState :=
  let σ := printLn "Uploading audio for transcription via API... This may take a moment." σ
  match client.transcribe with
  | .ok t => (some t, printLn "Transcription successful." σ)
  | .apiError e =>
      (none, errWrite ("OpenAI API Error during transcription: " ++ e ++ "\n") σ)
  | .exn e =>
      (none, errWrite ("An unexpected error occurred during transcription: " ++ e ++ "\n") σ)

/-! ## The prompts of summarize_transcript -/

/-- The map-step prompt f-string of cli.py lines 118-126, with `{chunk}`
interpolated. -/
def mapPrompt (chunk : String) : String :=
  "\n        You are part of a summarization pipeline. Your task is to extract and summarize the key information from the following segment of a meeting transcript.\n        Focus on concrete facts, decisions made, and any tasks assigned to individuals. Be concise and clear.\n\n        Transcript Segment:\n        ---\n        "
    ++ chunk ++ "\n        ---\n        "

/-- The reduce-step prompt f-string of cli.py lines 138-152, with
`{combined_summaries}` interpolated. -/
def reducePrompt (combined : String) : String :=
  "\n    You are an expert executive assistant. Your goal is to create a clear and actionable summary from a collection of meeting notes.\n    Analyze the provided notes and generate a final report in a valid JSON object format.\n\n    The JSON object must have exactly these three keys:\n    1. \"summary\": A brief, one-paragraph overview of the meeting\x27s main topics and outcomes.\n    2. \"key_decisions\": A list of strings, where each string is a significant decision that was finalized.\n    3. \"action_items\": A list of objects, where each object has three string keys: \"task\", \"owner\" (use \"TBD\" if unassigned), and \"deadline\" (use \"Not specified\" if none).\n\n    Meeting Notes to Synthesize:\n    ---\n    "
    ++ combined ++ "\n    ---\n    Now, generate the final JSON report.\n    "

/-! ## summarize_transcript -/

/-- The map loop of `summarize_transcript` (cli.py lines 116-129): for each
chunk in order, print a progress line, issue one map request, and append
the response to `chunk_summaries` only when it is non-empty
(Python `if summary:`). -/
def mapStep (client : LLMClient) (total : Nat) :
    List String → Nat → List String → SysState → List String × SysState
  | [], _, acc, σ => (acc, σ)
  | chunk :: rest, i, acc, σ =>
      let σ1 := printLn ("  - Processing chunk " ++ toString (i + 1) ++ "/" ++
        toString total ++ "...") σ
      let r := get_llm_response client (mapPrompt chunk) false σ1
      mapStep client total rest (i + 1)
        (if r.1 = "" then acc else acc ++ [r.1]) r.2

/-- `summarize_transcript(transcript, client)` (cli.py lines 97-156):
tokenize, chunk, map over the chunks, and either short-circuit to the
empty JSON object text when no chunk summary was collected, or issue the
single reduce request on the summaries joined by the visible separator. -/
def summarize_transcript (tok : Tokenizer) (client : LLMClient)
    (transcript : String) (σ : SysState) : String × SysState :=
  let σ := printLn "Starting summarization process..." σ
  let tokens := tok.encode transcript
  let σ := printLn "Splitting transcript into chunks..." σ
  let chunks := (chunkTokens tokens).map tok.decode
  let σ := printLn ("Summarizing " ++ toString chunks.length ++ " chunk(s) of text...") σ
  let r := mapStep client chunks.length chunks 0 [] σ
  if r.1 = [] then
    ("\x7b\x7d", errWrite "Could not generate summaries for any transcript chunks.\n" r.2)
  else
    let σ := printLn "Generating final consolidated summary..." r.2
    let combined := String.intercalate "\n\n---\n\n" r.1
    let rr := get_llm_response client (reducePrompt combined) true σ
    (rr.1, printLn "Summarization complete." rr.2)

/-! ## main (summarize action, credentials present) -/

/-- Result of one CLI session: the process exit status and the final
stdout/stderr/request state. -/
structure MainResult where
  exitCode : Nat
  sys : SysState
deriving DecidableEq

/-- The `summarize` branch of `main()` (cli.py lines 199-208), for a
well-formed invocation with the API key present: transcribe, and only when
the transcript is truthy (`if transcript:` — not `None` and non-empty),
summarize and print the two marker blocks.  Falling off the end of `main`
exits the process with status 0. -/
def main_summarize (tok : Tokenizer) (client : LLMClient) : MainResult :=
  let r := transcribe_audio_with_api client SysState.init
  match r.1 with
  | some t =>
      if t = "" then ⟨0, r.2⟩
      else
        let s := summarize_transcript tok client t r.2
        let σ := printLn ("TRANSCRIPT:" ++ t ++ "\n") s.2
        let σ := printLn ("SUMMARY_JSON_START:\n" ++ s.1 ++ "\nSUMMARY_JSON_END\n") σ
        ⟨0, σ⟩
  | none => ⟨0, r.2⟩

/-! ## Pure characterization of the pipeline

The imperative, state-threading definitions above mirror the source; the
definitions below give their input/output behaviour in closed form, proved
equal in `mapStep_eq` and `summarize_transcript_eq`. -/

/-- The result string of one `get_llm_response` call, as a pure function of
the call outcome. -/
def completeResult (client : LLMClient) (p : String) (j : Bool) : String :=
  match client.complete p j with
  | .ok content => pyStrip content
  | .apiError _ => if j then "\x7b\x7d" else ""
  | .exn _ => if j then "\x7b\x7d" else ""

/-- The stderr text written by one `get_llm_response` call. -/
def completeErrLine (client : LLMClient) (p : String) (j : Bool) : String :=
  match client.complete p j with
  | .ok _ => ""
  | .apiError e => "OpenAI API Error during summarization: " ++ e ++ "\n"
  | .exn e => "An unexpected error occurred during summarization: " ++ e ++ "\n"

lemma get_llm_response_eq (client : LLMClient) (p : String) (j : Bool)
    (σ : SysState) :
    get_llm_response client p j σ =
      (completeResult client p j,
       ⟨σ.stdout, σ.stderr ++ completeErrLine client p j, σ.calls ++ [(p, j)]⟩) := by
  cases h : client.complete p j <;>
    simp [get_llm_response, completeResult, completeErrLine, logCall, errWrite, h,
      String.append_empty, String.append_assoc]

/-- The map-step response for one chunk (`summary` in cli.py line 127). -/
def mapResult (client : LLMClient) (chunk : String) : String :=
  completeResult client (mapPrompt chunk) false

/-- The progress lines printed by the map loop. -/
def mapOut (total : Nat) : List String → Nat → String
  | [], _ => ""
  | _ :: rest, i =>
      ("  - Processing chunk " ++ toString (i + 1) ++ "/" ++ toString total ++ "...") ++
        "\n" ++ mapOut total rest (i + 1)

/-- The stderr text written by the map loop. -/
def mapErr (client : LLMClient) : List String → String
  | [] => ""
  | c :: rest => completeErrLine client (mapPrompt c) false ++ mapErr client rest

lemma mapStep_eq (client : LLMClient) (total : Nat) :
    ∀ (chunks : List String) (i : Nat) (acc : List String) (σ : SysState),
      mapStep client total chunks i acc σ =
        (acc ++ (chunks.map (mapResult client)).filter (fun s => !(s == "")),
         ⟨σ.stdout ++ mapOut total chunks i,
          σ.stderr ++ mapErr client chunks,
          σ.calls ++ chunks.map (fun c => (mapPrompt c, false))⟩) := by
  intro chunks
  induction chunks with
  | nil =>
      intro i acc σ
      simp [mapStep, mapOut, mapErr, String.append_empty]
  | cons c rest ih =>
      intro i acc σ
      rw [mapStep, get_llm_response_eq, ih]
      by_cases h : completeResult client (mapPrompt c) false = ""
      · simp [mapResult, h, printLn, mapOut, mapErr, List.filter_cons,
          String.append_assoc, List.append_assoc]
      · simp [mapResult, h, printLn, mapOut, mapErr, List.filter_cons,
          String.append_assoc, List.append_assoc]

/-- The decoded chunk texts of a transcript (`chunks` in cli.py). -/
def chunksOf (tok : Tokenizer) (T : String) : List String :=
  (chunkTokens (tok.encode T)).map tok.decode

/-- The collected `chunk_summaries`: the non-empty map responses, in
original chunk order. -/
def summariesOf (tok : Tokenizer) (client : LLMClient) (T : String) : List String :=
  ((chunksOf tok T).map (mapResult client)).filter (fun s => !(s == ""))

/-- `combined_summaries` (cli.py line 137). -/
def combinedOf (tok : Tokenizer) (client : LLMClient) (T : String) : String :=
  String.intercalate "\n\n---\n\n" (summariesOf tok client T)

/-- The string returned by `summarize_transcript`, in closed form. -/
def summaryOutput (tok : Tokenizer) (client : LLMClient) (T : String) : String :=
  if summariesOf tok client T = [] then "\x7b\x7d"
  else completeResult client (reducePrompt (combinedOf tok client T)) true

/-- The stdout text written by `summarize_transcript`, in closed form. -/
def summarizeOut (tok : Tokenizer) (client : LLMClient) (T : String) : String :=
  ("Starting summarization process..." ++ "\n") ++
  (("Splitting transcript into chunks..." ++ "\n") ++
  ((("Summarizing " ++ toString (chunksOf tok T).length ++ " chunk(s) of text...") ++ "\n") ++
  (mapOut (chunksOf tok T).length (chunksOf tok T) 0 ++
  (if summariesOf tok client T = [] then ""
   else ("Generating final consolidated summary..." ++ "\n") ++
     ("Summarization complete." ++ "\n")))))

/-- The stderr text written by `summarize_transcript`, in closed form. -/
def summarizeErr (tok : Tokenizer) (client : LLMClient) (T : String) : String :=
  mapErr client (chunksOf tok T) ++
  (if summariesOf tok client T = [] then
     "Could not generate summaries for any transcript chunks.\n"
   else completeErrLine client (reducePrompt (combinedOf tok client T)) true)

/-- The completion requests issued by `summarize_transcript`: one map call
per chunk, in chunk order, then one reduce call unless no summary was
collected. -/
def summarizeCallLog (tok : Tokenizer) (client : LLMClient) (T : String) :
    List (String × Bool) :=
  (chunksOf tok T).map (fun c => (mapPrompt c, false)) ++
  (if summariesOf tok client T = [] then []
   else [(reducePrompt (combinedOf tok client T), true)])

lemma summarize_transcript_eq (tok : Tokenizer) (client : LLMClient)
    (T : String) (σ : SysState) :
    summarize_transcript tok client T σ =
      (summaryOutput tok client T,
       ⟨σ.stdout ++ summarizeOut tok client T,
        σ.stderr ++ summarizeErr tok client T,
        σ.calls ++ summarizeCallLog tok client T⟩) := by
  have hs : (((chunkTokens (tok.encode T)).map tok.decode).map
      (mapResult client)).filter (fun s => !(s == "")) =
      summariesOf tok client T := rfl
  have hc : (chunkTokens (tok.encode T)).map tok.decode = chunksOf tok T := rfl
  simp only [summarize_transcript, mapStep_eq, List.nil_append]
  rw [hs, hc]
  by_cases h : summariesOf tok client T = []
  · rw [if_pos h]
    simp only [summaryOutput, summarizeOut, summarizeErr, summarizeCallLog, h,
      if_pos, errWrite, printLn, String.append_assoc, String.append_empty,
      List.append_assoc]
    simp [String.append_assoc]
  · rw [if_neg h, get_llm_response_eq]
    simp only [summaryOutput, summarizeOut, summarizeErr, summarizeCallLog, h,
      if_neg, printLn, combinedOf, String.append_assoc, String.append_empty,
      List.append_assoc]
    simp [h, String.append_assoc]

/-! ## Claim C2: mixed map-step failures -/

/-- Claim C2, as amended: when some per-chunk summarization calls fail
(yield an empty result) and others succeed, the collected
`chunk_summaries` are exactly the non-empty responses in original chunk
order, the pipeline does not abort (the reduce branch is taken), and the
string returned by `summarize_transcript` is the reduce response over
exactly those summaries joined in order — failed chunks contribute
nothing.  The original claim further asserted that this result is always a
valid StructuredReport; that part is false of the code, which returns the
reduce response unvalidated (see `C2_counterexample`). -/
theorem C2_mixed_failures_skip_and_continue (tok : Tokenizer)
    (client : LLMClient) (T : String) (σ : SysState)
    (hfail : ∃ c ∈ chunksOf tok T, mapResult client c = "")
    (hsucc : ∃ c ∈ chunksOf tok T, mapResult client c ≠ "") :
    (mapStep client (chunksOf tok T).length (chunksOf tok T) 0 [] σ).1 =
      ((chunksOf tok T).map (mapResult client)).filter (fun s => !(s == "")) ∧
    summariesOf tok client T ≠ [] ∧
    (summarize_transcript tok client T σ).1 =
      completeResult client
        (reducePrompt (String.intercalate "\n\n---\n\n" (summariesOf tok client T)))
        true := by
  obtain ⟨c, hc, hne⟩ := hsucc
  have hmem : mapResult client c ∈ summariesOf tok client T := by
    refine List.mem_filter.mpr ⟨List.mem_map_of_mem _ hc, ?_⟩
    simp [hne]
  have hnonempty : summariesOf tok client T ≠ [] := List.ne_nil_of_mem hmem
  refine ⟨?_, hnonempty, ?_⟩
  · rw [mapStep_eq]
    simp
  · rw [summarize_transcript_eq]
    simp [summaryOutput, combinedOf, hnonempty]

/-! Concrete run for C2: a transcript of 8001 tokens giving two chunks,
the first map call failing, the second succeeding. -/

lemma drop_replicate {α : Type} :
    ∀ (n m : Nat) (a : α), (List.replicate m a).drop n = List.replicate (m - n) a := by
  intro n
  induction n with
  | zero => intro m a; simp
  | succ k ih =>
      intro m a
      cases m with
      | zero => simp
      | succ m' => simpa using ih m' a

lemma replicate_ne_nil {n : Nat} (hn : n ≠ 0) (a : Token) :
    List.replicate n a ≠ [] := by
  intro he
  have hl := congrArg List.length he
  rw [List.length_replicate] at hl
  exact hn (by simpa using hl)

lemma chunkTokens_replicate_8001 :
    chunkTokens (List.replicate 8001 (0 : Token)) =
      [List.replicate 8000 (0 : Token), List.replicate 1 (0 : Token)] := by
  rw [chunkTokens_eq, if_neg (replicate_ne_nil (by norm_num) 0), List.take_replicate,
    drop_replicate,
    show MAX_TOKENS_PER_CHUNK ⊓ 8001 = 8000 by norm_num [MAX_TOKENS_PER_CHUNK],
    show 8001 - MAX_TOKENS_PER_CHUNK = 1 by norm_num [MAX_TOKENS_PER_CHUNK]]
  rw [chunkTokens_eq, if_neg (replicate_ne_nil (by norm_num) 0), List.take_replicate,
    drop_replicate,
    show MAX_TOKENS_PER_CHUNK ⊓ 1 = 1 by norm_num [MAX_TOKENS_PER_CHUNK],
    show 1 - MAX_TOKENS_PER_CHUNK = 0 by norm_num [MAX_TOKENS_PER_CHUNK]]
  rw [show List.replicate 0 (0 : Token) = [] from rfl,
    show chunkTokens ([] : List Token) = [] from rfl]

/-- A tokenizer whose encoding of any text has 8001 tokens; the 8000-token
chunk decodes to "A", the 1-token chunk to "B". -/
def tokC2 : Tokenizer :=
  ⟨fun _ => List.replicate 8001 0, fun ts => if ts.length = 8000 then "A" else "B"⟩

/-- A client whose map call on chunk "A" raises an APIError and which
returns "notes" otherwise. -/
def clientC2 : LLMClient :=
  ⟨fun p _ => if p == mapPrompt "A" then .apiError "rate limited" else .ok "notes",
   .ok "t"⟩

lemma chunksOf_C2 : chunksOf tokC2 "T" = ["A", "B"] := by
  show ((chunkTokens (List.replicate 8001 (0 : Token))).map tokC2.decode) = ["A", "B"]
  rw [chunkTokens_replicate_8001]
  simp only [List.map_cons, List.map_nil, tokC2, List.length_replicate]
  norm_num

set_option maxRecDepth 8192 in
theorem C2_witness :
    (mapStep clientC2 (chunksOf tokC2 "T").length (chunksOf tokC2 "T") 0 []
        SysState.init).1 =
      ((chunksOf tokC2 "T").map (mapResult clientC2)).filter (fun s => !(s == "")) ∧
    summariesOf tokC2 clientC2 "T" ≠ [] ∧
    (summarize_transcript tokC2 clientC2 "T" SysState.init).1 =
      completeResult clientC2
        (reducePrompt (String.intercalate "\n\n---\n\n" (summariesOf tokC2 clientC2 "T")))
        true := by
  have hA : mapResult clientC2 "A" = "" := by decide
  have hB : mapResult clientC2 "B" = "notes" := by decide
  have hfail : ∃ c ∈ chunksOf tokC2 "T", mapResult clientC2 c = "" :=
    ⟨"A", by rw [chunksOf_C2]; simp, hA⟩
  have hsucc : ∃ c ∈ chunksOf tokC2 "T", mapResult clientC2 c ≠ "" :=
    ⟨"B", by rw [chunksOf_C2]; simp, by rw [hB]; decide⟩
  exact C2_mixed_failures_skip_and_continue tokC2 clientC2 "T" SysState.init hfail hsucc

/-! ## Claim C6: empty input, no collected summaries -/

/-- Claim C6: chunking the empty string yields zero chunks, and when zero
chunk summaries were collected `summarize_transcript` short-circuits,
returning the default report string and writing the diagnostic to stderr
rather than raising. -/
theorem C6_empty_input_short_circuit (tok : Tokenizer) (client : LLMClient)
    (T : String) (σ : SysState)
    (henc : tok.encode "" = [])
    (hnone : summariesOf tok client T = []) :
    chunkTokens (tok.encode "") = [] ∧
    (summarize_transcript tok client T σ).1 = "\x7b\x7d" ∧
    ∃ pre, (summarize_transcript tok client T σ).2.stderr =
      pre ++ "Could not generate summaries for any transcript chunks.\n" := by
  refine ⟨by rw [henc]; rfl, ?_, ?_⟩
  · rw [summarize_transcript_eq]
    simp [summaryOutput, hnone]
  · rw [summarize_transcript_eq]
    refine ⟨σ.stderr ++ mapErr client (chunksOf tok T), ?_⟩
    simp [summarizeErr, hnone, String.append_assoc]

/-- A tokenizer encoding every text (the empty one included) to no tokens. -/
def tokC6 : Tokenizer := ⟨fun _ => [], fun _ => ""⟩

/-- A client that always succeeds with empty content. -/
def clientC6 : LLMClient := ⟨fun _ _ => .ok "", .ok ""⟩

theorem C6_witness :
    chunkTokens (tokC6.encode "") = [] ∧
    (summarize_transcript tokC6 clientC6 "" SysState.init).1 = "\x7b\x7d" ∧
    ∃ pre, (summarize_transcript tokC6 clientC6 "" SysState.init).2.stderr =
      pre ++ "Could not generate summaries for any transcript chunks.\n" :=
  C6_empty_input_short_circuit tokC6 clientC6 "" SysState.init rfl rfl

/-! ## Claim C7: the 20000-token scenario -/

lemma chunkTokens_len_20000 (ts : List Token) (h : ts.length = 20000) :
    (chunkTokens ts).map List.length = [8000, 8000, 4000] := by
  have h0 : ts ≠ [] := by
    intro he; rw [he] at h; simp at h
  have l1 : (ts.drop MAX_TOKENS_PER_CHUNK).length = 12000 := by
    simp only [List.length_drop, MAX_TOKENS_PER_CHUNK]
    omega
  have h1 : ts.drop MAX_TOKENS_PER_CHUNK ≠ [] := by
    intro he; rw [he] at l1; simp at l1
  have l2 : ((ts.drop MAX_TOKENS_PER_CHUNK).drop MAX_TOKENS_PER_CHUNK).length = 4000 := by
    simp only [List.length_drop, MAX_TOKENS_PER_CHUNK]
    omega
  have h2 : (ts.drop MAX_TOKENS_PER_CHUNK).drop MAX_TOKENS_PER_CHUNK ≠ [] := by
    intro he; rw [he] at l2; simp at l2
  have l3 : (((ts.drop MAX_TOKENS_PER_CHUNK).drop MAX_TOKENS_PER_CHUNK).drop
      MAX_TOKENS_PER_CHUNK).length = 0 := by
    simp only [List.length_drop, MAX_TOKENS_PER_CHUNK]
    omega
  have h3 : ((ts.drop MAX_TOKENS_PER_CHUNK).drop MAX_TOKENS_PER_CHUNK).drop
      MAX_TOKENS_PER_CHUNK = [] := List.eq_nil_of_length_eq_zero l3
  rw [chunkTokens_eq, if_neg h0, chunkTokens_eq, if_neg h1, chunkTokens_eq, if_neg h2,
    h3, show chunkTokens ([] : List Token) = [] from rfl]
  simp only [List.map_cons, List.map_nil, List.length_take, List.length_drop,
    MAX_TOKENS_PER_CHUNK, List.cons.injEq, and_true]
  omega

/-- Claim C7: a transcript that encodes to exactly 20000 tokens is split
into exactly 3 chunks of 8000, 8000 and 4000 tokens in that order, and
(provided at least one map response is non-empty, so that the pipeline
reaches the reduce step at all) the run issues exactly 3 map completion
requests and exactly 1 reduce (JSON-mode) completion request. -/
theorem C7_three_chunks_three_map_calls_one_reduce_call (tok : Tokenizer)
    (client : LLMClient) (T : String)
    (hlen : (tok.encode T).length = 20000)
    (hsucc : summariesOf tok client T ≠ []) :
    (chunkTokens (tok.encode T)).map List.length = [8000, 8000, 4000] ∧
    ((summarize_transcript tok client T SysState.init).2.calls.filter
        (fun c => c.2 == false)).length = 3 ∧
    ((summarize_transcript tok client T SysState.init).2.calls.filter
        (fun c => c.2 == true)).length = 1 := by
  have hmap := chunkTokens_len_20000 (tok.encode T) hlen
  have hchunks : (chunksOf tok T).length = 3 := by
    have : ((chunkTokens (tok.encode T)).map List.length).length = 3 := by
      rw [hmap]; rfl
    simpa [chunksOf] using this
  have hcalls : (summarize_transcript tok client T SysState.init).2.calls =
      (chunksOf tok T).map (fun c => (mapPrompt c, false)) ++
      [(reducePrompt (combinedOf tok client T), true)] := by
    rw [summarize_transcript_eq]
    simp [summarizeCallLog, hsucc, SysState.init]
  have hfilter_false :
      ((chunksOf tok T).map (fun c => (mapPrompt c, false))).filter
        (fun c => c.2 == false) =
      (chunksOf tok T).map (fun c => (mapPrompt c, false)) := by
    apply List.filter_eq_self.mpr
    intro a ha
    obtain ⟨c, _, hac⟩ := List.mem_map.mp ha
    rw [← hac]
    rfl
  have hfilter_true :
      ((chunksOf tok T).map (fun c => (mapPrompt c, false))).filter
        (fun c => c.2 == true) = [] := by
    apply List.filter_eq_nil_iff.mpr
    intro a ha
    obtain ⟨c, _, hac⟩ := List.mem_map.mp ha
    rw [← hac]
    simp
  refine ⟨hmap, ?_, ?_⟩
  · rw [hcalls, List.filter_append, hfilter_false]
    simp [hchunks]
  · rw [hcalls, List.filter_append, hfilter_true]
    simp

/-! Concrete run for C7: every text encodes to 20000 tokens, all map calls
succeed. -/

/-- A tokenizer whose encoding of any text has exactly 20000 tokens. -/
def tokC7 : Tokenizer := ⟨fun _ => List.replicate 20000 0, fun _ => "x"⟩

/-- A client that always returns "notes". -/
def clientC7 : LLMClient := ⟨fun _ _ => .ok "notes", .ok "t"⟩

lemma chunkTokens_replicate_20000 :
    chunkTokens (List.replicate 20000 (0 : Token)) =
      [List.replicate 8000 (0 : Token), List.replicate 8000 (0 : Token),
       List.replicate 4000 (0 : Token)] := by
  rw [chunkTokens_eq, if_neg (replicate_ne_nil (by norm_num) 0), List.take_replicate,
    drop_replicate,
    show MAX_TOKENS_PER_CHUNK ⊓ 20000 = 8000 by norm_num [MAX_TOKENS_PER_CHUNK],
    show 20000 - MAX_TOKENS_PER_CHUNK = 12000 by norm_num [MAX_TOKENS_PER_CHUNK]]
  rw [chunkTokens_eq, if_neg (replicate_ne_nil (by norm_num) 0), List.take_replicate,
    drop_replicate,
    show MAX_TOKENS_PER_CHUNK ⊓ 12000 = 8000 by norm_num [MAX_TOKENS_PER_CHUNK],
    show 12000 - MAX_TOKENS_PER_CHUNK = 4000 by norm_num [MAX_TOKENS_PER_CHUNK]]
  rw [chunkTokens_eq, if_neg (replicate_ne_nil (by norm_num) 0), List.take_replicate,
    drop_replicate,
    show MAX_TOKENS_PER_CHUNK ⊓ 4000 = 4000 by norm_num [MAX_TOKENS_PER_CHUNK],
    show 4000 - MAX_TOKENS_PER_CHUNK = 0 by norm_num [MAX_TOKENS_PER_CHUNK]]
  rw [show List.replicate 0 (0 : Token) = [] from rfl,
    show chunkTokens ([] : List Token) = [] from rfl]

lemma chunksOf_C7 : chunksOf tokC7 "T" = ["x", "x", "x"] := by
  show ((chunkTokens (List.replicate 20000 (0 : Token))).map tokC7.decode) = ["x", "x", "x"]
  rw [chunkTokens_replicate_20000]
  simp only [List.map_cons, List.map_nil, tokC7]

theorem C7_witness :
    (chunkTokens (tokC7.encode "T")).map List.length = [8000, 8000, 4000] ∧
    ((summarize_transcript tokC7 clientC7 "T" SysState.init).2.calls.filter
        (fun c => c.2 == false)).length = 3 ∧
    ((summarize_transcript tokC7 clientC7 "T" SysState.init).2.calls.filter
        (fun c => c.2 == true)).length = 1 := by
  have hlen : (tokC7.encode "T").length = 20000 := by
    show (List.replicate 20000 (0 : Token)).length = 20000
    rw [List.length_replicate]
  have hsucc : summariesOf tokC7 clientC7 "T" ≠ [] := by
    have : summariesOf tokC7 clientC7 "T" = ["notes", "notes", "notes"] := by
      simp only [summariesOf, chunksOf_C7]
      decide
    rw [this]
    decide
  exact C7_three_chunks_three_map_calls_one_reduce_call tokC7 clientC7 "T" hlen hsucc

/-! ## Claim C8: the adapter never propagates remote failures -/

/-- Claim C8: for every remote-call failure — an `openai.APIError` or any
other exception, in either adapter — the adapters return normally instead
of propagating: `get_llm_response` writes the matching diagnostic line to
stderr and returns the empty/default result (`""` in text mode, the empty
JSON object in JSON mode), and `transcribe_audio_with_api` writes the
matching diagnostic line to stderr and returns the failure sentinel
(`none`, the embedding of Python `None`).  No failure goes undiagnosed:
each failing call appends its non-empty diagnostic to stderr. -/
theorem C8_adapter_failures_contained (client : LLMClient) (p : String)
    (j : Bool) (σ : SysState) :
    (∀ e, client.complete p j = .apiError e →
      (get_llm_response client p j σ).1 = (if j then "\x7b\x7d" else "") ∧
      (get_llm_response client p j σ).2.stderr =
        σ.stderr ++ ("OpenAI API Error during summarization: " ++ e ++ "\n")) ∧
    (∀ e, client.complete p j = .exn e →
      (get_llm_response client p j σ).1 = (if j then "\x7b\x7d" else "") ∧
      (get_llm_response client p j σ).2.stderr =
        σ.stderr ++ ("An unexpected error occurred during summarization: " ++ e ++ "\n")) ∧
    (∀ e, client.transcribe = .apiError e →
      (transcribe_audio_with_api client σ).1 = none ∧
      (transcribe_audio_with_api client σ).2.stderr =
        σ.stderr ++ ("OpenAI API Error during transcription: " ++ e ++ "\n")) ∧
    (∀ e, client.transcribe = .exn e →
      (transcribe_audio_with_api client σ).1 = none ∧
      (transcribe_audio_with_api client σ).2.stderr =
        σ.stderr ++ ("An unexpected error occurred during transcription: " ++ e ++ "\n")) := by
  refine ⟨?_, ?_, ?_, ?_⟩
  · intro e he
    rw [get_llm_response_eq]
    simp [completeResult, completeErrLine, he, String.append_assoc]
  · intro e he
    rw [get_llm_response_eq]
    simp [completeResult, completeErrLine, he, String.append_assoc]
  · intro e he
    simp [transcribe_audio_with_api, he, printLn, errWrite, String.append_assoc]
  · intro e he
    simp [transcribe_audio_with_api, he, printLn, errWrite, String.append_assoc]

/-- A client for which every remote call raises an APIError. -/
def clientC8 : LLMClient := ⟨fun _ _ => .apiError "boom", .apiError "boom"⟩

theorem C8_witness :
    (get_llm_response clientC8 "p" true SysState.init).1 = "\x7b\x7d" ∧
    (get_llm_response clientC8 "p" false SysState.init).1 = "" ∧
    (get_llm_response clientC8 "p" true SysState.init).2.stderr =
      "OpenAI API Error during summarization: boom\n" ∧
    (transcribe_audio_with_api clientC8 SysState.init).1 = none := by
  have h1 := (C8_adapter_failures_contained clientC8 "p" true SysState.init).1 "boom" rfl
  have h2 := (C8_adapter_failures_contained clientC8 "p" false SysState.init).1 "boom" rfl
  have h3 := ((C8_adapter_failures_contained clientC8 "p" true SysState.init).2.2.1
    "boom" rfl).1
  refine ⟨by simpa using h1.1, by simpa using h2.1, ?_, h3⟩
  rw [h1.2]
  rfl

/-! ## Claim C9: ticker cleanup on every exit path of record_audio -/

/-- One observable action of `record_audio` (cli.py lines 29-72), in
program order: starting the ticker thread, running the blocking ffmpeg
capture, writing to stderr in an `except` arm, setting the shared stop
flag, joining the ticker thread, and printing. -/
inductive RecEvent where
  | tickerStart
  | ffmpegRun
  | stderrWrite (s : String)
  | setStopFlag
  | tickerJoin
  | printLine (s : String)
deriving DecidableEq

/-- How the `try` body of `record_audio` ends: the ffmpeg run returns
normally, raises `ffmpeg.Error`, or raises any other exception. -/
inductive RecordOutcome where
  | ok
  | ffmpegError (msg : String)
  | exn (msg : String)

/-- The trace of observable actions of `record_audio(output_filename)`
(cli.py lines 29-72): the ticker thread is started, the banner is printed,
the ffmpeg capture runs inside `try`; an `ffmpeg.Error` or any other
exception is caught and reported on stderr; the `finally` block then sets
the stop flag, joins the ticker thread and prints the closing line, on
every path. -/
def record_audio (outcome : RecordOutcome) : List RecEvent :=
  [RecEvent.tickerStart,
   RecEvent.printLine "Starting recording... Press \x27Stop Recording\x27 in the GUI to finish.",
   RecEvent.ffmpegRun] ++
  (match outcome with
   | .ok => []
   | .ffmpegError m =>
       [RecEvent.stderrWrite ("An ffmpeg error occurred during recording:\n" ++ m ++ "\n")]
   | .exn m =>
       [RecEvent.stderrWrite ("An unexpected error occurred during recording: " ++ m ++ "\n")]) ++
  [RecEvent.setStopFlag, RecEvent.tickerJoin,
   RecEvent.printLine "\nRecording process finished."]

/-- Claim C9: on every exit path of `record_audio` — normal completion,
capture-subprocess error, or any other exception — the trace ends by
setting the ticker stop flag and joining the ticker thread (followed only
by the final print of the `finally` block), the stop flag is not set and
the join does not occur anywhere earlier, and the ticker was started
first; so `record_audio` never returns with the ticker thread unjoined. -/
theorem C9_ticker_joined_on_every_exit (outcome : RecordOutcome) :
    ∃ pre, record_audio outcome =
        pre ++ [RecEvent.setStopFlag, RecEvent.tickerJoin,
          RecEvent.printLine "\nRecording process finished."] ∧
      RecEvent.setStopFlag ∉ pre ∧
      RecEvent.tickerJoin ∉ pre ∧
      pre.head? = some RecEvent.tickerStart := by
  cases outcome with
  | ok =>
      refine ⟨[RecEvent.tickerStart,
        RecEvent.printLine "Starting recording... Press \x27Stop Recording\x27 in the GUI to finish.",
        RecEvent.ffmpegRun], rfl, ?_, ?_, rfl⟩ <;> decide
  | ffmpegError m =>
      refine ⟨[RecEvent.tickerStart,
        RecEvent.printLine "Starting recording... Press \x27Stop Recording\x27 in the GUI to finish.",
        RecEvent.ffmpegRun,
        RecEvent.stderrWrite ("An ffmpeg error occurred during recording:\n" ++ m ++ "\n")],
        rfl, ?_, ?_, rfl⟩ <;> simp
  | exn m =>
      refine ⟨[RecEvent.tickerStart,
        RecEvent.printLine "Starting recording... Press \x27Stop Recording\x27 in the GUI to finish.",
        RecEvent.ffmpegRun,
        RecEvent.stderrWrite ("An unexpected error occurred during recording: " ++ m ++ "\n")],
        rfl, ?_, ?_, rfl⟩ <;> simp

/-! ## Claim C10: whitespace-only responses are skipped like failures -/

/-- Claim C10: a map response consisting only of whitespace is stripped to
the empty string before the non-empty check, so it contributes no chunk
summary; a run in which some call returns whitespace-only content is
indistinguishable — in collected summaries, returned report and stdout —
from the run in which that same call raises, and the pipeline continues
either way.  (`cl1` returns whitespace `w` on the target request, `cl2`
raises there, and they agree on every other request.) -/
theorem C10_whitespace_response_skipped (tok : Tokenizer)
    (cl1 cl2 : LLMClient) (T tgt w e : String) (σ : SysState)
    (hw : pyStrip w = "")
    (h1 : cl1.complete tgt false = .ok w)
    (h2 : cl2.complete tgt false = .apiError e)
    (hagree : ∀ p j, p ≠ tgt ∨ j = true → cl1.complete p j = cl2.complete p j) :
    completeResult cl1 tgt false = "" ∧
    summariesOf tok cl1 T = summariesOf tok cl2 T ∧
    (summarize_transcript tok cl1 T σ).1 = (summarize_transcript tok cl2 T σ).1 ∧
    (summarize_transcript tok cl1 T σ).2.stdout =
      (summarize_transcript tok cl2 T σ).2.stdout := by
  have hres : ∀ p j, completeResult cl1 p j = completeResult cl2 p j := by
    intro p j
    by_cases hp : p = tgt ∧ j = false
    · obtain ⟨hp, hj⟩ := hp
      subst hp; subst hj
      rw [completeResult, completeResult, h1, h2]
      simp [hw]
    · have hor : p ≠ tgt ∨ j = true := by
        rcases Bool.eq_false_or_eq_true j with hj | hj
        · right
          exact hj
        · left
          intro hptgt
          exact hp ⟨hptgt, hj⟩
      rw [completeResult, completeResult, hagree p j hor]
  have hsum : summariesOf tok cl1 T = summariesOf tok cl2 T := by
    unfold summariesOf
    congr 1
    apply List.map_congr_left
    intro c _
    exact hres (mapPrompt c) false
  refine ⟨?_, hsum, ?_, ?_⟩
  · rw [completeResult, h1]
    simp [hw]
  · rw [summarize_transcript_eq, summarize_transcript_eq]
    show summaryOutput tok cl1 T = summaryOutput tok cl2 T
    unfold summaryOutput combinedOf
    rw [hsum, hres (reducePrompt (String.intercalate "\n\n---\n\n"
      (summariesOf tok cl2 T))) true]
  · rw [summarize_transcript_eq, summarize_transcript_eq]
    show σ.stdout ++ summarizeOut tok cl1 T = σ.stdout ++ summarizeOut tok cl2 T
    unfold summarizeOut
    rw [hsum]

/-! Concrete run for C10: one chunk, whose map response is whitespace in
one run and an APIError in the other. -/

/-- A tokenizer with a single chunk decoding to "A". -/
def tokC10 : Tokenizer := ⟨fun _ => [0], fun _ => "A"⟩

/-- Returns whitespace-only content on the map request for chunk "A",
and "R" on every other request. -/
def cl1C10 : LLMClient :=
  ⟨fun p j => if p == mapPrompt "A" && !j then .ok " \n " else .ok "R", .ok "t"⟩

/-- Raises an APIError on the map request for chunk "A", and returns "R"
on every other request. -/
def cl2C10 : LLMClient :=
  ⟨fun p j => if p == mapPrompt "A" && !j then .apiError "late" else .ok "R", .ok "t"⟩

set_option maxRecDepth 8192 in
theorem C10_witness :
    completeResult cl1C10 (mapPrompt "A") false = "" ∧
    summariesOf tokC10 cl1C10 "T" = summariesOf tokC10 cl2C10 "T" ∧
    (summarize_transcript tokC10 cl1C10 "T" SysState.init).1 =
      (summarize_transcript tokC10 cl2C10 "T" SysState.init).1 ∧
    (summarize_transcript tokC10 cl1C10 "T" SysState.init).2.stdout =
      (summarize_transcript tokC10 cl2C10 "T" SysState.init).2.stdout := by
  have hw : pyStrip " \n " = "" := by decide
  have h1 : cl1C10.complete (mapPrompt "A") false = .ok " \n " := by
    simp [cl1C10]
  have h2 : cl2C10.complete (mapPrompt "A") false = .apiError "late" := by
    simp [cl2C10]
  have hagree : ∀ p j, p ≠ mapPrompt "A" ∨ j = true →
      cl1C10.complete p j = cl2C10.complete p j := by
    intro p j h
    rcases h with h | h
    · simp [cl1C10, cl2C10, h]
    · subst h
      simp [cl1C10, cl2C10]
  exact C10_whitespace_response_skipped tokC10 cl1C10 cl2C10 "T" (mapPrompt "A")
    " \n " "late" SysState.init hw h1 h2 hagree

/-! ## JSON deserialization, as applied by the consumer of the output

The summary string emitted by the CLI is deserialized by the GUI
(gui.py `handle_stdout`) with `json.loads`, and the three schema keys are
then read with `dict.get` and defaults (gui.py `display_summary`), so a
parse result that is a JSON object deserializes against the three-key
schema (missing keys are defaulted) and anything else fails. -/

/-- A JSON value (numbers kept as their literal text). -/
inductive JValue where
  | null
  | bool (b : Bool)
  | num (raw : String)
  | str (s : String)
  | arr (elems : List JValue)
  | obj (fields : List (String × JValue))

/-- The opening brace character. -/
def lbrace : Char := Char.ofNat 123

/-- The closing brace character. -/
def rbrace : Char := Char.ofNat 125

/-- JSON insignificant whitespace. -/
def isWsChar (c : Char) : Bool :=
  c == ' ' || c == '\t' || c == '\n' || c == '\r'

/-- Skips insignificant whitespace. -/
def skipWs (cs : List Char) : List Char := cs.dropWhile isWsChar

/-- Parses the body of a JSON string after the opening quote, up to and
consuming the closing quote; escape pairs are kept raw. -/
def parseStrBody : List Char → Option (List Char × List Char)
  | [] => none
  | c :: cs =>
      if c == '"' then some ([], cs)
      else if c == '\\' then
        match cs with
        | [] => none
        | e :: cs' => (parseStrBody cs').map (fun r => (c :: e :: r.1, r.2))
      else (parseStrBody cs).map (fun r => (c :: r.1, r.2))

/-- Parses a JSON numeric literal (optional sign, digits, optional
fraction, optional exponent), returning its text. -/
def parseNumber (cs : List Char) : Option (List Char × List Char) :=
  let signed := match cs with
    | c :: r => if c == '-' then ([c], r) else (([] : List Char), cs)
    | [] => (([] : List Char), cs)
  let ip := signed.2.takeWhile Char.isDigit
  let r1 := signed.2.dropWhile Char.isDigit
  if ip.isEmpty then none
  else
    let fracp := match r1 with
      | c :: r =>
          if c == '.' then
            let f := r.takeWhile Char.isDigit
            if f.isEmpty then (([] : List Char), r1)
            else (c :: f, r.dropWhile Char.isDigit)
          else (([] : List Char), r1)
      | [] => (([] : List Char), r1)
    let expp := match fracp.2 with
      | c :: r =>
          if c == 'e' || c == 'E' then
            let sgn := match r with
              | d :: r' => if d == '+' || d == '-' then ([d], r') else (([] : List Char), r)
              | [] => (([] : List Char), r)
            let ds := sgn.2.takeWhile Char.isDigit
            if ds.isEmpty then (([] : List Char), fracp.2)
            else (c :: sgn.1 ++ ds, sgn.2.dropWhile Char.isDigit)
          else (([] : List Char), fracp.2)
      | [] => (([] : List Char), fracp.2)
    some (signed.1 ++ ip ++ fracp.1 ++ expp.1, expp.2)

/-- Recursive-descent JSON parser, modelled from the JSON syntax accepted
by Python `json.loads` (slightly permissive: it tolerates a trailing
separator before a closing brace/bracket and does not validate escape
sequences or leading zeros, so it accepts a superset of JSON — a string it
rejects is rejected by `json.loads` too).  After a member and a comma, the
remainder of an object (respectively array) is parsed by re-entering the
parser on the remainder prefixed with the opening token; the fuel bounds
that recursion and is always sufficient for the inputs considered here. -/
def parseVal : Nat → List Char → Option (JValue × List Char)
  | 0, _ => none
  | fuel + 1, cs =>
      match skipWs cs with
      | [] => none
      | c :: rest =>
          if c == '"' then
            match parseStrBody rest with
            | some (body, r2) => some (.str (String.mk body), r2)
            | none => none
          else if c == lbrace then
            match skipWs rest with
            | [] => none
            | c2 :: rest2 =>
                if c2 == rbrace then some (.obj [], rest2)
                else if c2 == '"' then
                  match parseStrBody rest2 with
                  | none => none
                  | some (key, r3) =>
                      match skipWs r3 with
                      | ':' :: r4 =>
                          match parseVal fuel r4 with
                          | none => none
                          | some (v, r5) =>
                              match skipWs r5 with
                              | ',' :: r6 =>
                                  match parseVal fuel (lbrace :: r6) with
                                  | some (.obj fields, r7) =>
                                      some (.obj ((String.mk key, v) :: fields), r7)
                                  | _ => none
                              | c7 :: r7 =>
                                  if c7 == rbrace then
                                    some (.obj [(String.mk key, v)], r7)
                                  else none
                              | [] => none
                      | _ => none
                else none
          else if c == '[' then
            match skipWs rest with
            | [] => none
            | c2 :: rest2 =>
                if c2 == ']' then some (.arr [], rest2)
                else
                  match parseVal fuel (c2 :: rest2) with
                  | none => none
                  | some (v, r3) =>
                      match skipWs r3 with
                      | ',' :: r4 =>
                          match parseVal fuel ('[' :: r4) with
                          | some (.arr elems, r5) => some (.arr (v :: elems), r5)
                          | _ => none
                      | c5 :: r5 => if c5 == ']' then some (.arr [v], r5) else none
                      | [] => none
          else if c == 't' then
            match rest with
            | 'r' :: 'u' :: 'e' :: r => some (.bool true, r)
            | _ => none
          else if c == 'f' then
            match rest with
            | 'a' :: 'l' :: 's' :: 'e' :: r => some (.bool false, r)
            | _ => none
          else if c == 'n' then
            match rest with
            | 'u' :: 'l' :: 'l' :: r => some (.null, r)
            | _ => none
          else
            match parseNumber (c :: rest) with
            | some (ds, r) => some (.num (String.mk ds), r)
            | none => none

/-- `json.loads` on a whole string: one value, nothing but whitespace
after it. -/
def jsonParse (s : String) : Option JValue :=
  match parseVal (s.length + 2) s.data with
  | some (v, rest) => if skipWs rest = [] then some v else none
  | none => none

/-- Whether a string deserializes against the three-key StructuredReport
schema as the GUI does: `json.loads` succeeds and yields a JSON object
(the three keys are then read with defaults, so any object — the empty
default instance included — deserializes; any non-object or unparseable
string fails). -/
def deserializesAsStructuredReport (s : String) : Bool :=
  match jsonParse s with
  | some (.obj _) => true
  | _ => false

/-! ## Claim C3: the returned string is not always a valid report -/

/-- A tokenizer with a single one-token chunk decoding to "seg". -/
def tokC3 : Tokenizer := ⟨fun _ => [0], fun _ => "seg"⟩

/-- A client whose reduce (JSON-mode) call returns the plain text "hello"
and whose map calls return "notes". -/
def clientC3 : LLMClient :=
  ⟨fun _ j => if j then .ok "hello" else .ok "notes", .ok "t"⟩

/-- Claim C3 counterexample: when the reduce call returns the non-JSON
text "hello", `summarize_transcript` returns exactly that raw text, which
does not deserialize against the StructuredReport schema — so the
returned string is not always a syntactically valid serialized
StructuredReport. -/
theorem C3_counterexample :
    (summarize_transcript tokC3 clientC3 "t" SysState.init).1 = "hello" ∧
    deserializesAsStructuredReport "hello" = false := by
  constructor
  · rfl
  · rfl

/-- Claim C3 as amended: on the failure paths — no chunk summary was
collected, or the reduce call raises — `summarize_transcript` returns the
empty JSON object, a syntactically valid empty/default serialization of
the schema; but when the reduce call returns content, that content is
returned verbatim (stripped of surrounding whitespace) without any
validation, so in the success case the result is a valid serialized
StructuredReport only if the remote model honoured the requested JSON
mode. -/
theorem C3_default_on_failure_verbatim_on_success (tok : Tokenizer)
    (client : LLMClient) (T : String) (σ : SysState) :
    (summariesOf tok client T = [] →
      (summarize_transcript tok client T σ).1 = "\x7b\x7d" ∧
      deserializesAsStructuredReport "\x7b\x7d" = true) ∧
    (∀ e, summariesOf tok client T ≠ [] →
      (client.complete (reducePrompt (combinedOf tok client T)) true = .apiError e ∨
       client.complete (reducePrompt (combinedOf tok client T)) true = .exn e) →
      (summarize_transcript tok client T σ).1 = "\x7b\x7d" ∧
      deserializesAsStructuredReport "\x7b\x7d" = true) ∧
    (∀ c, summariesOf tok client T ≠ [] →
      client.complete (reducePrompt (combinedOf tok client T)) true = .ok c →
      (summarize_transcript tok client T σ).1 = pyStrip c) := by
  refine ⟨?_, ?_, ?_⟩
  · intro h
    rw [summarize_transcript_eq]
    exact ⟨by simp [summaryOutput, h], by rfl⟩
  · intro e h hor
    rw [summarize_transcript_eq]
    refine ⟨?_, by rfl⟩
    simp only [summaryOutput, if_neg h]
    rcases hor with he | he <;> simp [completeResult, he]
  · intro c h hok
    rw [summarize_transcript_eq]
    simp only [summaryOutput, if_neg h]
    simp [completeResult, hok]

/-- A client whose reduce (JSON-mode) call raises an APIError and whose
map calls return "notes". -/
def clientC3b : LLMClient :=
  ⟨fun _ j => if j then .apiError "down" else .ok "notes", .ok "t"⟩

theorem C3_witness :
    (summarize_transcript tokC3 clientC3b "t" SysState.init).1 = "\x7b\x7d" ∧
    deserializesAsStructuredReport "\x7b\x7d" = true := by
  have h : summariesOf tokC3 clientC3b "t" ≠ [] := by decide
  have hn : clientC3b.complete (reducePrompt (combinedOf tokC3 clientC3b "t")) true =
      .apiError "down" := rfl
  exact (C3_default_on_failure_verbatim_on_success tokC3 clientC3b "t"
    SysState.init).2.1 "down" h (Or.inl hn)

/-! ## Claim C2, original form: refuted on the validity conjunct -/

/-- A client for the C2 counterexample: its map call on chunk "A" raises
an APIError, its map call on any other chunk returns "facts", and its
reduce (JSON-mode) call returns the non-JSON text "notes". -/
def clientC2c : LLMClient :=
  ⟨fun p j =>
    if j then .ok "notes"
    else if p == mapPrompt "A" then .apiError "rate limited" else .ok "facts",
   .ok "t"⟩

set_option maxRecDepth 8192 in
/-- Claim C2 counterexample: in a concrete mixed-failure run — the map
call for chunk "A" raises an APIError, the map call for chunk "B"
succeeds — whose reduce call returns the non-JSON text "notes",
`summarize_transcript` returns that text verbatim, and it does not
deserialize against the StructuredReport schema.  So the original claim,
that such a run still produces a valid StructuredReport, is false: the
skip-and-continue behaviour holds, but the reduce response is passed
through unvalidated. -/
theorem C2_counterexample :
    (∃ c ∈ chunksOf tokC2 "T", mapResult clientC2c c = "") ∧
    (∃ c ∈ chunksOf tokC2 "T", mapResult clientC2c c ≠ "") ∧
    (summarize_transcript tokC2 clientC2c "T" SysState.init).1 = "notes" ∧
    deserializesAsStructuredReport "notes" = false := by
  have hA : mapResult clientC2c "A" = "" := by decide
  have hB : mapResult clientC2c "B" = "facts" := by decide
  have hsum : summariesOf tokC2 clientC2c "T" = ["facts"] := by
    simp only [summariesOf, chunksOf_C2, List.map_cons, List.map_nil, hA, hB]
    decide
  have hfst : (summarize_transcript tokC2 clientC2c "T" SysState.init).1 =
      summaryOutput tokC2 clientC2c "T" := by
    rw [summarize_transcript_eq]
  refine ⟨⟨"A", by rw [chunksOf_C2]; decide, hA⟩,
    ⟨"B", by rw [chunksOf_C2]; decide, by rw [hB]; decide⟩, ?_, by rfl⟩
  rw [hfst]
  unfold summaryOutput combinedOf
  rw [hsum]
  rw [if_neg (by decide : ¬(["facts"] : List String) = [])]
  decide

/-! ## Claim C4: the stdout marker protocol on a successful run -/

/-- The string returned by `summarize_transcript` for a transcript, run
from a fresh state. -/
def summaryOf (tok : Tokenizer) (client : LLMClient) (T : String) : String :=
  (summarize_transcript tok client T SysState.init).1

/-- The stdout text written by `summarize_transcript` for a transcript,
run from a fresh state. -/
def summarizeStdout (tok : Tokenizer) (client : LLMClient) (T : String) : String :=
  (summarize_transcript tok client T SysState.init).2.stdout

/-- Claim C4: on every successful summarize run (transcription returned a
non-empty transcript `t`), the standard output is exactly the diagnostics
of transcription and summarization followed by exactly one transcript
block and then exactly one summary block, emitted in that order: the frame
`TRANSCRIPT:<t>\n` followed by one extra newline (appended by `print`),
then the frame `SUMMARY_JSON_START:\n<json>\nSUMMARY_JSON_END\n` followed
by one extra newline, with nothing but the payload between the start and
end markers of the summary block and no diagnostic text after the first
marker. -/
theorem C4_marker_protocol_on_success (tok : Tokenizer) (client : LLMClient)
    (t : String) (h : client.transcribe = .ok t) (ht : t ≠ "") :
    (main_summarize tok client).sys.stdout =
      "Uploading audio for transcription via API... This may take a moment.\n" ++
      "Transcription successful.\n" ++
      summarizeStdout tok client t ++
      ("TRANSCRIPT:" ++ t ++ "\n" ++ "\n") ++
      ("SUMMARY_JSON_START:\n" ++ summaryOf tok client t ++ "\nSUMMARY_JSON_END\n" ++ "\n") := by
  have hS : summarizeStdout tok client t = summarizeOut tok client t := by
    rw [summarizeStdout, summarize_transcript_eq]
    show SysState.init.stdout ++ _ = _
    rw [show SysState.init.stdout = "" from rfl, String.empty_append]
  have hO : summaryOf tok client t = summaryOutput tok client t := by
    rw [summaryOf, summarize_transcript_eq]
  simp only [main_summarize, transcribe_audio_with_api, h]
  rw [if_neg ht]
  rw [summarize_transcript_eq]
  simp only [printLn, SysState.init, hS, hO]
  simp [String.append_assoc, String.empty_append]

/-- A tokenizer with a single one-token chunk decoding to "seg" (for the
C4 run). -/
def tokC4 : Tokenizer := ⟨fun _ => [0], fun _ => "seg"⟩

/-- A client whose transcription succeeds with "hello" and whose map and
reduce calls succeed. -/
def clientC4 : LLMClient :=
  ⟨fun _ j => if j then .ok "R" else .ok "notes", .ok "hello"⟩

theorem C4_witness :
    (main_summarize tokC4 clientC4).sys.stdout =
      "Uploading audio for transcription via API... This may take a moment.\n" ++
      "Transcription successful.\n" ++
      summarizeStdout tokC4 clientC4 "hello" ++
      ("TRANSCRIPT:" ++ "hello" ++ "\n" ++ "\n") ++
      ("SUMMARY_JSON_START:\n" ++ summaryOf tokC4 clientC4 "hello" ++
        "\nSUMMARY_JSON_END\n" ++ "\n") :=
  C4_marker_protocol_on_success tokC4 clientC4 "hello" rfl (by decide)

/-! ## Claim C5: failed transcription -/

set_option maxRecDepth 40000 in
/-- Claim C5, corrected: when the whole-transcript transcription call
fails, the session emits no marker blocks (stdout is the single
transcription-upload diagnostic line and contains none of the three
markers), a human-readable diagnostic carrying the exception message is
written to stderr — but the process exits with status 0, not non-zero:
`main` falls through the `if transcript:` guard without calling
`sys.exit`. -/
theorem C5_transcription_failure_no_markers_exit_zero (tok : Tokenizer)
    (client : LLMClient) (e : String)
    (h : client.transcribe = .apiError e ∨ client.transcribe = .exn e) :
    (main_summarize tok client).exitCode = 0 ∧
    (main_summarize tok client).sys.stdout =
      "Uploading audio for transcription via API... This may take a moment.\n" ∧
    ¬ List.IsInfix "TRANSCRIPT:".data (main_summarize tok client).sys.stdout.data ∧
    ¬ List.IsInfix "SUMMARY_JSON_START:".data (main_summarize tok client).sys.stdout.data ∧
    ¬ List.IsInfix "SUMMARY_JSON_END".data (main_summarize tok client).sys.stdout.data ∧
    ∃ pre, pre ≠ "" ∧ (main_summarize tok client).sys.stderr = pre ++ (e ++ "\n") := by
  have hmain : ∃ pre, pre ≠ "" ∧ main_summarize tok client =
      ⟨0, ⟨"Uploading audio for transcription via API... This may take a moment.\n",
        pre ++ (e ++ "\n"), []⟩⟩ := by
    rcases h with he | he
    · refine ⟨"OpenAI API Error during transcription: ", by decide, ?_⟩
      simp [main_summarize, transcribe_audio_with_api, he, printLn, errWrite,
        SysState.init, String.empty_append, String.append_assoc]
    · refine ⟨"An unexpected error occurred during transcription: ", by decide, ?_⟩
      simp [main_summarize, transcribe_audio_with_api, he, printLn, errWrite,
        SysState.init, String.empty_append, String.append_assoc]
  obtain ⟨pre, hpre, hm⟩ := hmain
  have h1 : ¬ List.IsInfix "TRANSCRIPT:".data
      "Uploading audio for transcription via API... This may take a moment.\n".data := by
    decide
  have h2 : ¬ List.IsInfix "SUMMARY_JSON_START:".data
      "Uploading audio for transcription via API... This may take a moment.\n".data := by
    decide
  have h3 : ¬ List.IsInfix "SUMMARY_JSON_END".data
      "Uploading audio for transcription via API... This may take a moment.\n".data := by
    decide
  rw [hm]
  exact ⟨rfl, rfl, h1, h2, h3, pre, hpre, rfl⟩

/-- A tokenizer that is never reached (transcription fails first). -/
def tokC5 : Tokenizer := ⟨fun _ => [], fun _ => ""⟩

/-- A client whose transcription call raises an APIError. -/
def clientC5 : LLMClient :=
  ⟨fun _ _ => .ok "", .apiError "service unavailable"⟩

/-- Claim C5 counterexample: with the transcription service failing
outright, the session exits with status 0 — not, as claimed, with a
non-zero status (cli.py lines 199-205 fall through without `sys.exit`). -/
theorem C5_counterexample :
    clientC5.transcribe = .apiError "service unavailable" ∧
    (main_summarize tokC5 clientC5).exitCode = 0 :=
  ⟨rfl, rfl⟩

theorem C5_witness :
    (main_summarize tokC5 clientC5).exitCode = 0 ∧
    (main_summarize tokC5 clientC5).sys.stdout =
      "Uploading audio for transcription via API... This may take a moment.\n" ∧
    ¬ List.IsInfix "TRANSCRIPT:".data (main_summarize tokC5 clientC5).sys.stdout.data ∧
    ¬ List.IsInfix "SUMMARY_JSON_START:".data
      (main_summarize tokC5 clientC5).sys.stdout.data ∧
    ¬ List.IsInfix "SUMMARY_JSON_END".data
      (main_summarize tokC5 clientC5).sys.stdout.data ∧
    ∃ pre, pre ≠ "" ∧ (main_summarize tokC5 clientC5).sys.stderr =
      pre ++ ("service unavailable" ++ "\n") :=
  C5_transcription_failure_no_markers_exit_zero tokC5 clientC5
    "service unavailable" (Or.inl rfl)

end MeetingSummarizer
